import Mathlib

/-!
Shallow embedding of `homework.py` / `exceptions.py`: a Telegram homework-status
polling bot.  Python values are modelled by an inductive `PyVal`, Python
exceptions by `PyErr`, and each source function by a Lean function of the same
name.  The poll loop (`main`'s `while True` body) is modelled as a single-step
function over an explicit loop state, parametrised by the outcome of the
outside world (HTTP fetch result, Telegram send outcomes).
-/

/-- Python values, as far as this program manipulates them: `None`, booleans,
integers, strings, lists and (string-keyed) dicts, matching JSON payloads. -/
inductive PyVal where
  | none : PyVal
  | bool : Bool → PyVal
  | int : Int → PyVal
  | str : String → PyVal
  | list : List PyVal → PyVal
  | dict : List (String × PyVal) → PyVal

/-- Python exceptions that the program raises or catches.  The two custom
classes come from `exceptions.py`; `otherError` stands for any exception that
is neither of the listed concrete classes (used for non-Telegram errors raised
by `bot.send_message`). -/
inductive PyErr where
  | typeError (msg : String)
  | keyError (msg : String)
  | valueError (msg : String)
  | attributeError (msg : String)
  | connectionError (msg : String)
  | errorApiAnswer (msg : String)
  | errorKeyApiAnswer (msg : String)
  | otherError (msg : String)
deriving DecidableEq, Repr

/-- The custom exception classes of `exceptions.py`, as predicates on the
error universe: `ErrorApiAnswer` (no API answer) and `ErrorKeyApiAnswer`
(error-signalling key in the answer). -/
def PyErr.isErrorKeyApiAnswer : PyErr → Bool
  | .errorKeyApiAnswer _ => true
  | _ => false

mutual

/-- Python `repr` of a value (used by `str` on containers). -/
def PyVal.pyRepr : PyVal → String
  | .none => "None"
  | .bool true => "True"
  | .bool false => "False"
  | .int n => toString n
  | .str s => "\x27" ++ s ++ "\x27"
  | .list xs => "[" ++ ", ".intercalate (pyReprList xs) ++ "]"
  | .dict kvs => "\x7b" ++ ", ".intercalate (pyReprKVList kvs) ++ "\x7d"

def pyReprList : List PyVal → List String
  | [] => []
  | x :: xs => PyVal.pyRepr x :: pyReprList xs

def pyReprKVList : List (String × PyVal) → List String
  | [] => []
  | (k, v) :: kvs =>
      ("\x27" ++ k ++ "\x27: " ++ PyVal.pyRepr v) :: pyReprKVList kvs

end

/-- Python `str` of a value, as used by f-string interpolation. -/
def PyVal.pyStr : PyVal → String
  | .str s => s
  | v => v.pyRepr

/-- Python `str(exc)` for the exceptions of this program: `KeyError` renders
its message argument with `repr` (hence quoted), the others render it as-is. -/
def PyErr.pyStr : PyErr → String
  | .keyError m => "\x27" ++ m ++ "\x27"
  | .typeError m => m
  | .valueError m => m
  | .attributeError m => m
  | .connectionError m => m
  | .errorApiAnswer m => m
  | .errorKeyApiAnswer m => m
  | .otherError m => m

/-- Key lookup in a dict value (first binding wins, as Python dicts have
unique keys). -/
def pyLookup (kvs : List (String × PyVal)) (k : String) : Option PyVal :=
  kvs.lookup k

/-- Python `==` between a value and a string: only equal strings compare
equal; values of any other type compare unequal to a string. -/
def pyEqStr (v : PyVal) (k : String) : Bool :=
  match v with
  | .str s => s == k
  | _ => false

/-- Containment of one character list in another (Python substring test). -/
def listContainsSub (needle : List Char) : List Char → Bool
  | [] => needle.isEmpty
  | c :: t => needle.isPrefixOf (c :: t) || listContainsSub needle t

/-- Python `k in v` for a string `k`: key membership for dicts, element
membership for lists, substring test for strings, `TypeError` otherwise. -/
def pyContains (v : PyVal) (k : String) : Except PyErr Bool :=
  match v with
  | .dict kvs => .ok (kvs.any (fun p => p.1 == k))
  | .list xs => .ok (xs.any (fun x => pyEqStr x k))
  | .str s => .ok (listContainsSub k.data s.data)
  | v => .error (.typeError ("argument of type " ++ v.pyRepr ++ " is not iterable"))

/-- Python `v[k]` for a string key `k`: dict subscription; lists and strings
demand integer indices, other values are not subscriptable. -/
def pySubscript (v : PyVal) (k : String) : Except PyErr PyVal :=
  match v with
  | .dict kvs =>
      match pyLookup kvs k with
      | some w => .ok w
      | Option.none => .error (.keyError k)
  | .list _ => .error (.typeError "list indices must be integers or slices, not str")
  | .str _ => .error (.typeError "string indices must be integers")
  | v => .error (.typeError ("\x27" ++ v.pyRepr ++ "\x27 object is not subscriptable"))

/-- Python `type(v)` rendered by an f-string. -/
def PyVal.pyType : PyVal → String
  | .none => "<class \x27NoneType\x27>"
  | .bool _ => "<class \x27bool\x27>"
  | .int _ => "<class \x27int\x27>"
  | .str _ => "<class \x27str\x27>"
  | .list _ => "<class \x27list\x27>"
  | .dict _ => "<class \x27dict\x27>"

/-- The three environment-sourced configuration values; `os.getenv` yields
`none` for an unset variable and `some s` (possibly empty) otherwise. -/
structure Tokens where
  practicum : Option String
  telegram : Option String
  chatId : Option String
deriving DecidableEq, Repr

/-- Python truthiness of an `os.getenv` result: `None` and the empty string
are falsy. -/
def pyTruthyOptStr : Option String → Bool
  | Option.none => false
  | some s => !s.isEmpty

/-- The `TOKENS` module-level dict, in source order. -/
def TOKENS (t : Tokens) : List (String × Option String) :=
  [("PRACTICUM_TOKEN", t.practicum),
   ("TELEGRAM_TOKEN", t.telegram),
   ("TELEGRAM_CHAT_ID", t.chatId)]

/-- Embedding of `check_tokens`: when `all(TOKENS.values())` fails, collect
the names whose value `is None`; otherwise return the empty list. -/
def check_tokens (t : Tokens) : List String :=
  if !((TOKENS t).all (fun p => pyTruthyOptStr p.2)) then
    ((TOKENS t).filter (fun p => p.2 = Option.none)).map (fun p => p.1)
  else []

/-- The `HOMEWORK_VERDICTS` table. -/
def HOMEWORK_VERDICTS : List (String × String) :=
  [("approved", "Работа проверена: ревьюеру всё понравилось. Ура!"),
   ("reviewing", "Работа взята на проверку ревьюером."),
   ("rejected", "Работа проверена: у ревьюера есть замечания.")]

/-- The `ENDPOINT` constant. -/
def ENDPOINT : String := "https://practicum.yandex.ru/api/user_api/homework_statuses/"

/-- Python `str` of an `os.getenv` result under f-string interpolation. -/
def pyStrOfOptStr : Option String → String
  | Option.none => "None"
  | some s => s

/-- Python `str(HEADERS)`, the rendering used by error-message f-strings. -/
def HEADERS_str (t : Tokens) : String :=
  "\x7b\x27Authorization\x27: \x27OAuth " ++ pyStrOfOptStr t.practicum ++ "\x27\x7d"

/-- The `RETRY_PERIOD` constant. -/
def RETRY_PERIOD : Nat := 600

/-- Python `repr` of a list of strings, as f-strings render `none_tokens`. -/
def pyStrListRepr (xs : List String) : String :=
  "[" ++ ", ".intercalate (xs.map (fun n => "\x27" ++ n ++ "\x27")) ++ "]"

/-- Embedding of the startup portion of `main`: if `check_tokens` returns a
non-empty list the process exits via `sys.exit` (non-zero, with the listed
token names); otherwise the poll loop is entered. -/
def main_startup (t : Tokens) : Except String Unit :=
  let none_tokens := check_tokens t
  if none_tokens.isEmpty then .ok ()
  else .error ("Список недоступных токенов: " ++ pyStrListRepr none_tokens ++ ".")

/-- Outcome of the `requests.get` call in `get_api_answer`: either the request
itself raised `requests.RequestException`, or a response arrived with a status
code and a decoded JSON body. -/
inductive FetchResult where
  | exn (msg : String)
  | resp (status : Nat) (body : PyVal)

/-- Python `v.get(k)` / `v.get(k, d)` (dict method; `AttributeError` on
anything that is not a dict). -/
def pyGetMethod (v : PyVal) (k : String) (d : PyVal) : Except PyErr PyVal :=
  match v with
  | .dict kvs => .ok ((pyLookup kvs k).getD d)
  | v => .error (.attributeError (v.pyType ++ " object has no attribute \x27get\x27"))

/-- Embedding of `get_api_answer`: transport failure becomes
`ConnectionError`; a non-200 status becomes `ErrorApiAnswer`; a decoded body
containing `error` or `code` (Python `in`) becomes `ErrorKeyApiAnswer`, where
building the f-string first subscripts the body at that key; otherwise the
body is returned unmodified. -/
def get_api_answer (t : Tokens) (timestamp : PyVal) (fr : FetchResult) :
    Except PyErr PyVal :=
  let params := "Параметры:" ++ ENDPOINT ++ " " ++ HEADERS_str t ++ " " ++ timestamp.pyStr
  match fr with
  | .exn msg =>
      .error (.connectionError ("Ошибка запроса к API:" ++ msg ++ ". " ++ params))
  | .resp status body =>
      if status ≠ 200 then
        .error (.errorApiAnswer ("Не получен ответ API. Код ответа: " ++ toString status))
      else
        match pyContains body "error" with
        | .error e => .error e
        | .ok true =>
            match pySubscript body "error" with
            | .error e => .error e
            | .ok v => .error (.errorKeyApiAnswer
                ("Отказ сервера. В ответе найден ключ:error. Ошибка:" ++ v.pyStr
                  ++ ". " ++ params))
        | .ok false =>
            match pyContains body "code" with
            | .error e => .error e
            | .ok true =>
                match pySubscript body "code" with
                | .error e => .error e
                | .ok v => .error (.errorKeyApiAnswer
                    ("Отказ сервера. В ответе найден ключ:code. Ошибка:" ++ v.pyStr
                      ++ ". " ++ params))
            | .ok false => .ok body

/-- Embedding of `check_response`: `TypeError` if the response is not a dict
(this message is a plain string in the source, braces included), `KeyError` if
`homeworks` is absent, `TypeError` if its value is not a list; otherwise the
`homeworks` list is returned. -/
def check_response (response : PyVal) : Except PyErr (List PyVal) :=
  match response with
  | .dict kvs =>
      if !(kvs.any (fun p => p.1 == "homeworks")) then
        .error (.keyError "Отсутствует ключ homeworks.")
      else
        match (pyLookup kvs "homeworks").getD PyVal.none with
        | .list hws => .ok hws
        | v => .error (.typeError ("homeworks является не списком, а " ++ v.pyType ++ "."))
  | _ => .error (.typeError "Ответ содержит не словарь, а \x7btype(response)\x7d.")

/-- Python `v in HOMEWORK_VERDICTS` for an arbitrary value `v`: unhashable
values raise `TypeError`; a string is tested against the keys; any other
hashable value is simply not a key. -/
def pyInVerdicts (v : PyVal) : Except PyErr Bool :=
  match v with
  | .list _ => .error (.typeError "unhashable type: \x27list\x27")
  | .dict _ => .error (.typeError "unhashable type: \x27dict\x27")
  | .str s => .ok ((HOMEWORK_VERDICTS.map Prod.fst).contains s)
  | _ => .ok false

/-- Embedding of `parse_status`: `KeyError` when `homework_name` or `status`
is missing, `ValueError` when the status is not a key of
`HOMEWORK_VERDICTS`, otherwise the formatted notification sentence. -/
def parse_status (homework : PyVal) : Except PyErr String :=
  match pyContains homework "homework_name" with
  | .error e => .error e
  | .ok false => .error (.keyError "Отсутствует ключ homework_name.")
  | .ok true =>
      match pyContains homework "status" with
      | .error e => .error e
      | .ok false => .error (.keyError "Отсутствует ключ status.")
      | .ok true =>
          match pyGetMethod homework "status" PyVal.none with
          | .error e => .error e
          | .ok status =>
              match pyInVerdicts status with
              | .error e => .error e
              | .ok false =>
                  .error (.valueError ("Неизвестный статус работы - " ++ status.pyStr))
              | .ok true =>
                  match pyGetMethod homework "homework_name" PyVal.none with
                  | .error e => .error e
                  | .ok name =>
                      match status with
                      | .str sv =>
                          match HOMEWORK_VERDICTS.lookup sv with
                          | some verdict =>
                              .ok ("Изменился статус проверки работы \"" ++ name.pyStr
                                ++ "\". " ++ verdict)
                          | Option.none => .error (.keyError sv)
                      | _ => .error (.keyError status.pyStr)

/-- Outcome of a single `bot.send_message` call: success, a
`telegram.error.TelegramError`, or any other exception. -/
inductive SendOutcome where
  | ok
  | tgError (msg : String)
  | exn (msg : String)
deriving DecidableEq, Repr

/-- Observable actions of one loop iteration: a `bot.send_message` attempt, a
logged delivery failure, and the end-of-iteration sleep. -/
inductive Event where
  | botSend (text : String)
  | logSendFailure (text : String)
  | sleep (n : Nat)
deriving DecidableEq, Repr

/-- Embedding of `send_message`: the bot call is always attempted;
`TelegramError` is caught and logged inside the function (no propagated
error); any other exception propagates to the caller. -/
def send_message (out : SendOutcome) (message : String) : List Event × Option PyErr :=
  match out with
  | .ok => ([.botSend message], Option.none)
  | .tgError e =>
      ([.botSend message,
        .logSendFailure ("Ошибка отправки сообщения " ++ message ++ " в Telegram: " ++ e)],
       Option.none)
  | .exn e => ([.botSend message], some (.otherError e))

/-- The loop-owned mutable state of `main`: the `timestamp` cursor and
`last_message`. -/
structure LoopState where
  timestamp : PyVal
  last_message : String

/-- Environment of one loop iteration: the fetch outcome and the outcome of
each successive `bot.send_message` call made during the iteration. -/
structure IterEnv where
  fetch : FetchResult
  sends : Nat → SendOutcome

/-- Result of the `try` body of one iteration: the state after it, the events
it produced, and the exception escaping it, if any. -/
structure TryResult where
  state : LoopState
  events : List Event
  raised : Option PyErr

/-- Number of `bot.send_message` attempts recorded in an event list. -/
def countSends (evs : List Event) : Nat :=
  (evs.filter (fun e => match e with | .botSend _ => true | _ => false)).length

/-- Number of `bot.send_message` attempts carrying a given text. -/
def countSendsOf (m : String) (evs : List Event) : Nat :=
  (evs.filter (fun e => match e with | .botSend t => t == m | _ => false)).length

/-- Embedding of the `try` body of one iteration of `main`'s loop: fetch,
validate, skip when `homeworks` is empty, parse the first record, and — only
when the message differs from `last_message` — dispatch it, then update
`last_message` and advance `timestamp` to the response's `current_date`
(defaulting to the old value).  Any raised exception is surfaced in
`raised`. -/
def tryBody (t : Tokens) (env : IterEnv) (s : LoopState) : TryResult :=
  match get_api_answer t s.timestamp env.fetch with
  | .error e => ⟨s, [], some e⟩
  | .ok response =>
      match check_response response with
      | .error e => ⟨s, [], some e⟩
      | .ok [] => ⟨s, [], Option.none⟩
      | .ok (hw :: _) =>
          match parse_status hw with
          | .error e => ⟨s, [], some e⟩
          | .ok message =>
              if s.last_message ≠ message then
                match send_message (env.sends 0) message with
                | (evs, some e) => ⟨s, evs, some e⟩
                | (evs, Option.none) =>
                    match pyGetMethod response "current_date" s.timestamp with
                    | .ok ts2 => ⟨⟨ts2, message⟩, evs, Option.none⟩
                    | .error e => ⟨⟨s.timestamp, message⟩, evs, some e⟩
              else ⟨s, [], Option.none⟩

/-- Embedding of the `except Exception` handler of `main`'s loop: format the
failure text, and when it differs from `last_message`, attempt dispatch;
`last_message` is updated only if that dispatch returns without raising,
otherwise the inner handler merely logs. -/
def handleError (env : IterEnv) (s : LoopState) (usedSends : Nat) (e : PyErr) :
    LoopState × List Event :=
  let message := "Сбой в работе программы: " ++ e.pyStr
  if s.last_message ≠ message then
    match send_message (env.sends usedSends) message with
    | (evs, some e2) =>
        (s, evs ++ [.logSendFailure
          ("Ошибка отправки сообщения " ++ message ++ " в Telegram: " ++ e2.pyStr)])
    | (evs, Option.none) => ({ s with last_message := message }, evs)
  else (s, [])

/-- One full iteration of the loop, `finally` included: the handler catches
every exception of the body, and the fixed sleep runs regardless; an
uncaught exception would propagate (the `.error` arm), which the theorems
show never happens. -/
def runIteration (t : Tokens) (env : IterEnv) (s : LoopState) :
    Except PyErr (LoopState × List Event) :=
  let r := tryBody t env s
  let afterTry : Except PyErr (LoopState × List Event) :=
    match r.raised with
    | Option.none => .ok (r.state, r.events)
    | some e =>
        let (s2, evs2) := handleError env r.state (countSends r.events) e
        .ok (s2, r.events ++ evs2)
  match afterTry with
  | .ok (s2, evs) => .ok (s2, evs ++ [.sleep RETRY_PERIOD])
  | .error e => .error e

/-- Total view of one iteration (the handler in fact catches everything, so
this agrees with `runIteration`). -/
def iterate (t : Tokens) (env : IterEnv) (s : LoopState) : LoopState × List Event :=
  match runIteration t env s with
  | .ok r => r
  | .error _ => (s, [])

/-- Several consecutive iterations of the loop. -/
def runLoop (t : Tokens) : List IterEnv → LoopState → LoopState × List Event
  | [], s => (s, [])
  | env :: rest, s =>
      let r1 := iterate t env s
      let r2 := runLoop t rest r1.1
      (r2.1, r1.2 ++ r2.2)

/-- The failure-notification text built by the `except Exception` handler of
`main` (source line `message = f'Сбой в работе программы: {error}'`). -/
def failMsg (e : PyErr) : String :=
  "Сбой в работе программы: " ++ e.pyStr

/-- Modelled from the spec: the names of the required configuration keys
whose value is absent (`None`), in declaration order.  Used to compare
`check_tokens` against the spec's words. -/
def noneTokenNames (t : Tokens) : List String :=
  (TOKENS t).filterMap (fun p => if p.2 = Option.none then some p.1 else Option.none)

/-- A configuration in which all three tokens are present and non-empty. -/
def tokensOk : Tokens := ⟨some "p", some "t", some "c"⟩

/-- A configuration in which `PRACTICUM_TOKEN` is present but empty. -/
def tokensEmptyPracticum : Tokens := ⟨some "", some "tok", some "42"⟩

/-- The homework record of the specification's success scenario. -/
def hwApproved : PyVal :=
  PyVal.dict [("homework_name", PyVal.str "hw1"), ("status", PyVal.str "approved")]

/-- The response of the specification's success scenario
(`current_date = 1000`). -/
def respApproved : PyVal :=
  PyVal.dict [("homeworks", PyVal.list [hwApproved]), ("current_date", PyVal.int 1000)]

/-- Iteration environment of the success scenario: HTTP 200 with
`respApproved`, every Telegram send succeeding. -/
def envApproved : IterEnv := ⟨FetchResult.resp 200 respApproved, fun _ => SendOutcome.ok⟩

/-- The expected notification text of the success scenario. -/
def textApproved : String :=
  "Изменился статус проверки работы \"hw1\". Работа проверена: ревьюеру всё понравилось. Ура!"

/-- A success response whose `current_date` (0) lies strictly before the
cursor the fetch was issued with. -/
def respRegressing : PyVal :=
  PyVal.dict [("homeworks", PyVal.list [hwApproved]), ("current_date", PyVal.int 0)]

/-- Iteration environment built on `respRegressing`. -/
def envRegressing : IterEnv := ⟨FetchResult.resp 200 respRegressing, fun _ => SendOutcome.ok⟩

/-- Iteration environment of a plain HTTP failure (status 404), all sends
raising a non-Telegram exception. -/
def envHttp404AllSendsRaise : IterEnv :=
  ⟨FetchResult.resp 404 PyVal.none, fun _ => SendOutcome.exn "kaput"⟩

/-- Iteration environment of a transport failure with every Telegram send
failing with `TelegramError`. -/
def envTransportTgFail : IterEnv :=
  ⟨FetchResult.exn "boom", fun _ => SendOutcome.tgError "net down"⟩

/-- Membership of a key in an association list agrees with `lookup`
success. -/
lemma any_key_eq_lookup_isSome (kvs : List (String × PyVal)) (k : String) :
    kvs.any (fun p => p.1 == k) = (pyLookup kvs k).isSome := by
  induction kvs with
  | nil => rfl
  | cons p tl ih =>
      rcases p with ⟨a, b⟩
      by_cases h : a = k
      · subst h; simp [pyLookup, List.lookup]
      · have h1 : (a == k) = false := by simp [h]
        have h2 : (k == a) = false := by simp [Ne.symm h]
        simp [pyLookup, List.lookup, h1, h2] at ih ⊢
        exact ih

/-- One iteration, unfolded, when the body raised nothing. -/
lemma iterate_raised_none (t : Tokens) (env : IterEnv) (s : LoopState)
    (h : (tryBody t env s).raised = Option.none) :
    iterate t env s =
      ((tryBody t env s).state, (tryBody t env s).events ++ [Event.sleep RETRY_PERIOD]) := by
  unfold iterate runIteration
  rcases hr : tryBody t env s with ⟨s1, evs, e?⟩
  rw [hr] at h
  simp only at h
  subst h
  simp

/-- One iteration, unfolded, when the body raised an exception: the handler
runs and the trace still ends with the sleep. -/
lemma iterate_raised_some (t : Tokens) (env : IterEnv) (s : LoopState) (e : PyErr)
    (h : (tryBody t env s).raised = some e) :
    iterate t env s =
      ((handleError env (tryBody t env s).state (countSends (tryBody t env s).events) e).1,
       ((tryBody t env s).events ++
         (handleError env (tryBody t env s).state (countSends (tryBody t env s).events) e).2)
         ++ [Event.sleep RETRY_PERIOD]) := by
  unfold iterate runIteration
  rcases hr : tryBody t env s with ⟨s1, evs, e?⟩
  rw [hr] at h
  simp only at h
  subst h
  simp

/-- The iteration function never loses an exception: `runIteration` always
succeeds and agrees with `iterate`. -/
lemma runIteration_eq_ok (t : Tokens) (env : IterEnv) (s : LoopState) :
    runIteration t env s = .ok (iterate t env s) := by
  unfold iterate runIteration
  rcases tryBody t env s with ⟨s1, evs, e?⟩
  rcases e? with _ | e <;> simp

/-- A successful `check_response` forces the response to be a dict whose
`homeworks` entry is exactly the returned list. -/
lemma check_response_ok_dict (response : PyVal) (hws : List PyVal)
    (h : check_response response = .ok hws) :
    ∃ kvs, response = PyVal.dict kvs ∧ pyLookup kvs "homeworks" = some (PyVal.list hws) := by
  rcases response with _ | b | n | str | xs | kvs
  case dict =>
    refine ⟨kvs, rfl, ?_⟩
    unfold check_response at h
    by_cases hmem : (kvs.any fun p => p.1 == "homeworks") = true
    · simp only [hmem, Bool.not_true, Bool.false_eq_true, if_false] at h
      have hsome : (pyLookup kvs "homeworks").isSome := by
        rw [← any_key_eq_lookup_isSome]; exact hmem
      rcases hlk : pyLookup kvs "homeworks" with _ | v
      · rw [hlk] at hsome; simp at hsome
      · rw [hlk] at h
        simp only [Option.getD_some] at h
        rcases v with _ | b | n | str | xs | kvs2 <;> simp [PyVal.pyType] at h
        simp [h]
    · have hmem2 : (kvs.any fun p => p.1 == "homeworks") = false :=
        Bool.not_eq_true _ ▸ eq_false_of_ne_true hmem
      simp [hmem2] at h
  all_goals simp [check_response] at h

/-- Exhaustive description of `send_message`: the bot call is always
attempted; only a non-Telegram exception propagates. -/
lemma send_message_forms (out : SendOutcome) (m : String) :
    (send_message out m = ([Event.botSend m], Option.none))
    ∨ (∃ e, out = SendOutcome.tgError e ∧
        send_message out m = ([Event.botSend m,
          Event.logSendFailure ("Ошибка отправки сообщения " ++ m ++ " в Telegram: " ++ e)],
          Option.none))
    ∨ (∃ em, out = SendOutcome.exn em ∧
        send_message out m = ([Event.botSend m], some (PyErr.otherError em))) := by
  rcases out with _ | e | em
  · exact Or.inl rfl
  · exact Or.inr (Or.inl ⟨e, rfl, rfl⟩)
  · exact Or.inr (Or.inr ⟨em, rfl, rfl⟩)

/-- Exhaustive description of the `except Exception` handler: either the
failure text is a duplicate and nothing happens, or it is dispatched; the
state records it only when the dispatch returns without raising, and the
cursor is never touched. -/
lemma handleError_forms (env : IterEnv) (s : LoopState) (n : Nat) (e : PyErr) :
    (s.last_message = failMsg e ∧ handleError env s n e = (s, []))
    ∨ (s.last_message ≠ failMsg e ∧ (∃ em, env.sends n = SendOutcome.exn em ∧
        handleError env s n e = (s, [Event.botSend (failMsg e),
          Event.logSendFailure ("Ошибка отправки сообщения " ++ failMsg e
            ++ " в Telegram: " ++ (PyErr.otherError em).pyStr)])))
    ∨ (s.last_message ≠ failMsg e ∧
        (send_message (env.sends n) (failMsg e)).2 = Option.none ∧
        handleError env s n e =
          ({ s with last_message := failMsg e }, (send_message (env.sends n) (failMsg e)).1)) := by
  by_cases hlm : s.last_message = failMsg e
  · left
    exact ⟨hlm, by simp [handleError, failMsg, hlm]⟩
  · rcases send_message_forms (env.sends n) (failMsg e) with hs | ⟨te, hout, hs⟩ | ⟨em, hout, hs⟩
    · refine Or.inr (Or.inr ⟨hlm, by rw [hs], ?_⟩)
      simp only [handleError, failMsg] at *
      rw [if_pos hlm, hs]
    · refine Or.inr (Or.inr ⟨hlm, by rw [hs], ?_⟩)
      simp only [handleError, failMsg] at *
      rw [if_pos hlm, hs]
    · refine Or.inr (Or.inl ⟨hlm, em, hout, ?_⟩)
      simp only [handleError, failMsg] at *
      rw [if_pos hlm, hs]
      simp [PyErr.pyStr]

/-- Exhaustive description of the `try` body of one iteration: either nothing
observable happened (empty `homeworks` or suppressed duplicate), or an
exception was raised before any dispatch, or the dispatch itself raised a
non-Telegram exception, or the guarded success branch ran: dispatch, record
the message, and set the cursor to the response's `current_date` (keeping the
old cursor when that key is absent). -/
lemma tryBody_forms (t : Tokens) (env : IterEnv) (s : LoopState) :
    (tryBody t env s = ⟨s, [], Option.none⟩)
    ∨ (∃ e, tryBody t env s = ⟨s, [], some e⟩)
    ∨ (∃ hw msg em, parse_status hw = .ok msg ∧ s.last_message ≠ msg ∧
        env.sends 0 = SendOutcome.exn em ∧
        tryBody t env s = ⟨s, [Event.botSend msg], some (PyErr.otherError em)⟩)
    ∨ (∃ kvs hws hw msg,
        get_api_answer t s.timestamp env.fetch = .ok (PyVal.dict kvs) ∧
        check_response (PyVal.dict kvs) = .ok (hw :: hws) ∧
        parse_status hw = .ok msg ∧ s.last_message ≠ msg ∧
        (send_message (env.sends 0) msg).2 = Option.none ∧
        tryBody t env s = ⟨⟨(pyLookup kvs "current_date").getD s.timestamp, msg⟩,
          (send_message (env.sends 0) msg).1, Option.none⟩) := by
  rcases hg : get_api_answer t s.timestamp env.fetch with e | response
  · exact Or.inr (Or.inl ⟨e, by simp [tryBody, hg]⟩)
  rcases hc : check_response response with e | hws
  · exact Or.inr (Or.inl ⟨e, by simp [tryBody, hg, hc]⟩)
  rcases hws with _ | ⟨hw, rest⟩
  · exact Or.inl (by simp [tryBody, hg, hc])
  rcases hp : parse_status hw with e | msg
  · exact Or.inr (Or.inl ⟨e, by simp [tryBody, hg, hc, hp]⟩)
  by_cases hlm : s.last_message = msg
  · exact Or.inl (by simp [tryBody, hg, hc, hp, hlm])
  obtain ⟨kvs, rfl, hlk⟩ := check_response_ok_dict response (hw :: rest) hc
  rcases send_message_forms (env.sends 0) msg with hs | ⟨te, hout, hs⟩ | ⟨em, hout, hs⟩
  · refine Or.inr (Or.inr (Or.inr ⟨kvs, rest, hw, msg, rfl, hc, hp, hlm, by rw [hs], ?_⟩))
    simp [tryBody, hg, hc, hp, hlm, hs, pyGetMethod, pyLookup]
  · refine Or.inr (Or.inr (Or.inr ⟨kvs, rest, hw, msg, rfl, hc, hp, hlm, by rw [hs], ?_⟩))
    simp [tryBody, hg, hc, hp, hlm, hs, pyGetMethod, pyLookup]
  · refine Or.inr (Or.inr (Or.inl ⟨hw, msg, em, hp, hlm, hout, ?_⟩))
    simp [tryBody, hg, hc, hp, hlm, hs]

/-- Claim C9: every iteration of the poll loop — full success, the
empty-homeworks `continue` branch, and every caught iteration error — ends by
sleeping the fixed 600-unit interval, and no error arising in fetch,
validation, parsing, or dispatch escapes the iteration: `runIteration` always
returns normally, so the loop always proceeds. -/
theorem iteration_always_sleeps (t : Tokens) (env : IterEnv) (s : LoopState) :
    ∃ s2 evs, runIteration t env s = .ok (s2, evs) ∧
      evs.getLast? = some (Event.sleep 600) := by
  refine ⟨(iterate t env s).1, (iterate t env s).2,
    by simp [runIteration_eq_ok t env s], ?_⟩
  rcases hq : (tryBody t env s).raised with _ | e
  · rw [iterate_raised_none t env s hq]
    simp [RETRY_PERIOD, List.getLast?_concat]
  · rw [iterate_raised_some t env s e hq]
    simp [RETRY_PERIOD, List.getLast?_concat]

/-- Claim C3: for the record `{"homework_name": "hw1", "status": "approved"}`
inside a response with `current_date` 1000, `parse_status` returns exactly the
approved-verdict sentence, that text is dispatched (when `last_message`
differs), and the cursor becomes 1000. -/
theorem approved_scenario (t : Tokens) (ts : PyVal) (lm : String)
    (h : lm ≠ textApproved) :
    parse_status hwApproved = .ok textApproved ∧
    iterate t envApproved ⟨ts, lm⟩ =
      (⟨PyVal.int 1000, textApproved⟩,
       [Event.botSend textApproved, Event.sleep 600]) := by
  have h2 : tryBody t envApproved ⟨ts, lm⟩ =
      ⟨⟨PyVal.int 1000, textApproved⟩, [Event.botSend textApproved], Option.none⟩ := by
    rw [show tryBody t envApproved ⟨ts, lm⟩ =
        (if lm ≠ textApproved then
          (⟨⟨PyVal.int 1000, textApproved⟩, [Event.botSend textApproved], Option.none⟩ : TryResult)
        else ⟨⟨ts, lm⟩, [], Option.none⟩) from rfl]
    rw [if_pos h]
  refine ⟨rfl, ?_⟩
  rw [iterate_raised_none t envApproved ⟨ts, lm⟩ (by rw [h2])]
  rw [h2]
  rfl

/-- Concrete instance of `approved_scenario`: initial cursor 5, empty
`last_message`. -/
theorem approved_scenario_witness :
    parse_status hwApproved = .ok textApproved ∧
    iterate tokensOk envApproved ⟨PyVal.int 5, ""⟩ =
      (⟨PyVal.int 1000, textApproved⟩,
       [Event.botSend textApproved, Event.sleep 600]) :=
  approved_scenario tokensOk (PyVal.int 5) "" (by decide)

/-- Claim C4: `check_response` succeeds exactly on a mapping whose
`homeworks` value is a sequence (possibly empty), returning that sequence;
it raises exactly when the response is not a mapping, the key is absent, or
the value is not a sequence. -/
theorem check_response_characterization (response : PyVal) :
    (∀ hws, check_response response = Except.ok hws ↔
      ∃ kvs, response = PyVal.dict kvs ∧
        pyLookup kvs "homeworks" = some (PyVal.list hws)) ∧
    ((∃ e, check_response response = Except.error e) ↔
      ¬ ∃ kvs hws, response = PyVal.dict kvs ∧
        pyLookup kvs "homeworks" = some (PyVal.list hws)) := by
  have main : ∀ hws, check_response response = Except.ok hws ↔
      ∃ kvs, response = PyVal.dict kvs ∧
        pyLookup kvs "homeworks" = some (PyVal.list hws) := by
    intro hws
    constructor
    · exact check_response_ok_dict response hws
    · rintro ⟨kvs, rfl, hlk⟩
      have hmem : (kvs.any fun p => p.1 == "homeworks") = true := by
        rw [any_key_eq_lookup_isSome, hlk]; rfl
      simp [check_response, hmem, hlk]
  refine ⟨main, ?_⟩
  rcases hcr : check_response response with e | l
  · constructor
    · rintro - ⟨kvs, hws, hd, hlk⟩
      have h2 := (main hws).mpr ⟨kvs, hd, hlk⟩
      rw [hcr] at h2
      cases h2
    · intro _; exact ⟨e, rfl⟩
  · constructor
    · rintro ⟨e, he⟩; cases he
    · intro hno
      obtain ⟨kvs, hd, hlk⟩ := check_response_ok_dict response l hcr
      exact absurd ⟨kvs, l, hd, hlk⟩ hno

/-- Concrete instance of `check_response_characterization`: the empty
`homeworks` sequence is returned without error. -/
theorem check_response_characterization_witness :
    check_response (PyVal.dict [("homeworks", PyVal.list [])]) = Except.ok [] :=
  ((check_response_characterization _).1 []).mpr ⟨_, rfl, rfl⟩

/-- Membership in the keys of the verdict table agrees with `lookup`
success on the table. -/
lemma verdicts_contains_iff (s : String) :
    ((HOMEWORK_VERDICTS.map Prod.fst).contains s) = (HOMEWORK_VERDICTS.lookup s).isSome := by
  by_cases h1 : s = "approved"
  · subst h1; rfl
  by_cases h2 : s = "reviewing"
  · subst h2; rfl
  by_cases h3 : s = "rejected"
  · subst h3; rfl
  have e1 : (s == "approved") = false := beq_eq_false_iff_ne.mpr h1
  have e2 : (s == "reviewing") = false := beq_eq_false_iff_ne.mpr h2
  have e3 : (s == "rejected") = false := beq_eq_false_iff_ne.mpr h3
  simp [HOMEWORK_VERDICTS, List.lookup, e1, e2, e3]
  exact ⟨h1, h2, h3⟩

/-- Membership in the keys of the verdict table, in `∈` form. -/
lemma verdicts_mem_iff (s : String) :
    s ∈ HOMEWORK_VERDICTS.map Prod.fst ↔ (HOMEWORK_VERDICTS.lookup s).isSome = true := by
  by_cases h1 : s = "approved"
  · subst h1; simp [HOMEWORK_VERDICTS, List.lookup]
  by_cases h2 : s = "reviewing"
  · subst h2; simp [HOMEWORK_VERDICTS, List.lookup]
  by_cases h3 : s = "rejected"
  · subst h3; simp [HOMEWORK_VERDICTS, List.lookup]
  have e1 : (s == "approved") = false := beq_eq_false_iff_ne.mpr h1
  have e2 : (s == "reviewing") = false := beq_eq_false_iff_ne.mpr h2
  have e3 : (s == "rejected") = false := beq_eq_false_iff_ne.mpr h3
  simp [HOMEWORK_VERDICTS, List.lookup, e1, e2, e3, h1, h2, h3]

/-- Claim C5: on a record (a mapping), `parse_status` succeeds exactly when
`homework_name` and `status` are both present and the status value is one of
the three table keys, returning the formatted sentence combining the name
with that status's verdict; in every other case (either key missing, or a
status value outside the table) it fails. -/
theorem parse_status_characterization (kvs : List (String × PyVal)) :
    (∀ m, parse_status (PyVal.dict kvs) = Except.ok m ↔
      ∃ name sv verdict,
        pyLookup kvs "homework_name" = some name ∧
        pyLookup kvs "status" = some (PyVal.str sv) ∧
        HOMEWORK_VERDICTS.lookup sv = some verdict ∧
        m = "Изменился статус проверки работы \"" ++ name.pyStr ++ "\". " ++ verdict) ∧
    ((∃ e, parse_status (PyVal.dict kvs) = Except.error e) ↔
      ¬ ∃ sv, (pyLookup kvs "homework_name").isSome ∧
        pyLookup kvs "status" = some (PyVal.str sv) ∧
        (HOMEWORK_VERDICTS.lookup sv).isSome) := by
  by_cases hn : (kvs.any fun p => p.1 == "homework_name") = true
  case neg =>
    have hn' : (kvs.any fun p => p.1 == "homework_name") = false :=
      Bool.not_eq_true _ ▸ eq_false_of_ne_true hn
    have hps : parse_status (PyVal.dict kvs) =
        .error (.keyError "Отсутствует ключ homework_name.") := by
      simp [parse_status, pyContains, hn']
    have hname : pyLookup kvs "homework_name" = Option.none := by
      rcases hlk : pyLookup kvs "homework_name" with _ | v
      · rfl
      · have h2 := any_key_eq_lookup_isSome kvs "homework_name"
        rw [hn', hlk] at h2
        simp at h2
    refine ⟨?_, ?_⟩
    · intro m
      rw [hps]
      constructor
      · intro h; cases h
      · rintro ⟨name, sv, verdict, hname2, -⟩
        rw [hname] at hname2; cases hname2
    · rw [hps]
      constructor
      · rintro - ⟨sv, hsome, -⟩
        rw [hname] at hsome; simp at hsome
      · intro _; exact ⟨_, rfl⟩
  case pos =>
  by_cases hs : (kvs.any fun p => p.1 == "status") = true
  case neg =>
    have hs' : (kvs.any fun p => p.1 == "status") = false :=
      Bool.not_eq_true _ ▸ eq_false_of_ne_true hs
    have hps : parse_status (PyVal.dict kvs) =
        .error (.keyError "Отсутствует ключ status.") := by
      simp [parse_status, pyContains, hn, hs']
    have hstat : pyLookup kvs "status" = Option.none := by
      rcases hlk : pyLookup kvs "status" with _ | v
      · rfl
      · have h2 := any_key_eq_lookup_isSome kvs "status"
        rw [hs', hlk] at h2
        simp at h2
    refine ⟨?_, ?_⟩
    · intro m
      rw [hps]
      constructor
      · intro h; cases h
      · rintro ⟨name, sv, verdict, -, hstat2, -⟩
        rw [hstat] at hstat2; cases hstat2
    · rw [hps]
      constructor
      · rintro - ⟨sv, -, hstat2, -⟩
        rw [hstat] at hstat2; cases hstat2
      · intro _; exact ⟨_, rfl⟩
  case pos =>
  rcases hsv : pyLookup kvs "status" with _ | sval
  · have h2 := any_key_eq_lookup_isSome kvs "status"
    rw [hs, hsv] at h2
    simp at h2
  rcases hnv : pyLookup kvs "homework_name" with _ | nval
  · have h2 := any_key_eq_lookup_isSome kvs "homework_name"
    rw [hn, hnv] at h2
    simp at h2
  rcases sval with _ | b | n | sv | xs | kvs2
  case str =>
    rcases hvl : HOMEWORK_VERDICTS.lookup sv with _ | verdict
    · -- status string outside the table
      have hco : ¬ sv ∈ HOMEWORK_VERDICTS.map Prod.fst := by
        rw [verdicts_mem_iff, hvl]; simp
      have hps : parse_status (PyVal.dict kvs) =
          .error (.valueError ("Неизвестный статус работы - " ++ (PyVal.str sv).pyStr)) := by
        simp [parse_status, pyContains, hn, hs, pyGetMethod, hsv, pyInVerdicts, hco]
      refine ⟨?_, ?_⟩
      · intro m
        rw [hps]
        constructor
        · intro h; cases h
        · rintro ⟨name, sv2, verdict, -, hstat2, hvl2, -⟩
          simp only [Option.some.injEq, PyVal.str.injEq] at hstat2
          subst hstat2
          rw [hvl] at hvl2; cases hvl2
      · rw [hps]
        constructor
        · rintro - ⟨sv2, -, hstat2, hvl2⟩
          simp only [Option.some.injEq, PyVal.str.injEq] at hstat2
          subst hstat2
          rw [hvl] at hvl2; simp at hvl2
        · intro _; exact ⟨_, rfl⟩
    · -- full success
      have hco : sv ∈ HOMEWORK_VERDICTS.map Prod.fst := by
        rw [verdicts_mem_iff, hvl]; rfl
      have hps : parse_status (PyVal.dict kvs) =
          .ok ("Изменился статус проверки работы \"" ++ nval.pyStr ++ "\". " ++ verdict) := by
        simp [parse_status, pyContains, hn, hs, pyGetMethod, hsv, hnv, pyInVerdicts, hco, hvl]
      refine ⟨?_, ?_⟩
      · intro m
        rw [hps]
        constructor
        · intro h
          cases h
          exact ⟨nval, sv, verdict, rfl, rfl, hvl, rfl⟩
        · rintro ⟨name, sv2, verdict2, hnv2, hstat2, hvl2, hm⟩
          simp only [Option.some.injEq] at hnv2
          subst hnv2
          simp only [Option.some.injEq, PyVal.str.injEq] at hstat2
          subst hstat2
          rw [hvl] at hvl2
          simp only [Option.some.injEq] at hvl2
          subst hvl2
          rw [hm]
      · rw [hps]
        constructor
        · rintro ⟨e, he⟩; cases he
        · intro hno
          exact absurd ⟨sv, rfl, rfl, by rw [hvl]; rfl⟩ hno
  all_goals {
    refine ⟨?_, ?_⟩
    · intro m
      constructor
      · intro h
        simp [parse_status, pyContains, hn, hs, pyGetMethod, hsv, pyInVerdicts] at h
      · rintro ⟨name, sv2, verdict, -, hstat2, -⟩
        simp at hstat2
    · constructor
      · rintro - ⟨sv2, -, hstat2, -⟩
        simp at hstat2
      · intro _
        rcases hpe : parse_status (PyVal.dict kvs) with e | m2
        · exact ⟨e, rfl⟩
        · exfalso
          simp [parse_status, pyContains, hn, hs, pyGetMethod, hsv, pyInVerdicts] at hpe
  }

/-- Concrete instance of `parse_status_characterization`: the approved
record of the success scenario. -/
theorem parse_status_characterization_witness :
    parse_status hwApproved = Except.ok textApproved :=
  ((parse_status_characterization
      [("homework_name", PyVal.str "hw1"), ("status", PyVal.str "approved")]).1
    textApproved).mpr
    ⟨PyVal.str "hw1", "approved", "Работа проверена: ревьюеру всё понравилось. Ура!",
      rfl, rfl, rfl, rfl⟩

/-- Claim C2 counterexample: a configuration whose `PRACTICUM_TOKEN` is
present but empty is falsy for the `all()` test (the value is "empty" in the
code's own sense), yet `check_tokens` reports nothing and `main` enters the
poll loop instead of exiting. -/
theorem empty_token_not_fatal_counterexample :
    pyTruthyOptStr (some "") = false ∧
    check_tokens tokensEmptyPracticum = [] ∧
    main_startup tokensEmptyPracticum = Except.ok () :=
  ⟨rfl, rfl, rfl⟩

/-- Claim C2 (amended): `check_tokens` returns exactly the names of the
required keys whose value is absent (`None`), and `main` refuses to start the
loop — exiting non-zero and naming exactly those keys — precisely when that
list is non-empty; a present-but-empty value does not prevent startup. -/
theorem check_tokens_reports_none_tokens (t : Tokens) :
    check_tokens t = noneTokenNames t ∧
    (main_startup t = Except.error
        ("Список недоступных токенов: " ++ pyStrListRepr (noneTokenNames t) ++ ".") ↔
      noneTokenNames t ≠ []) ∧
    (main_startup t = Except.ok () ↔ noneTokenNames t = []) := by
  rcases t with ⟨p, q, r⟩
  rcases p with _ | p <;> rcases q with _ | q <;> rcases r with _ | r <;>
    simp [check_tokens, TOKENS, noneTokenNames, main_startup, pyTruthyOptStr,
      pyStrListRepr]

/-- Concrete instance of `check_tokens_reports_none_tokens`: only
`PRACTICUM_TOKEN` unset. -/
theorem check_tokens_reports_none_tokens_witness :
    check_tokens ⟨Option.none, some "x", some "1"⟩ = ["PRACTICUM_TOKEN"] ∧
    main_startup ⟨Option.none, some "x", some "1"⟩ =
      Except.error "Список недоступных токенов: [\x27PRACTICUM_TOKEN\x27]." :=
  ⟨(check_tokens_reports_none_tokens ⟨Option.none, some "x", some "1"⟩).1,
   ((check_tokens_reports_none_tokens ⟨Option.none, some "x", some "1"⟩).2.1).mpr
     (by decide)⟩

/-- Claim C6 counterexample: a 200 response whose decoded body is the JSON
array `["error"]` has no top-level keys at all, yet `get_api_answer` neither
returns the body unmodified nor raises `ErrorKeyApiAnswer`: the containment
test succeeds on the list element and building the rejection message then
subscripts the list, raising `TypeError`. -/
theorem error_key_nonmapping_counterexample :
    get_api_answer tokensOk (PyVal.int 0)
        (FetchResult.resp 200 (PyVal.list [PyVal.str "error"]))
      = Except.error (PyErr.typeError "list indices must be integers or slices, not str") ∧
    (∀ kvs, PyVal.list [PyVal.str "error"] ≠ PyVal.dict kvs) :=
  ⟨rfl, fun _ h => PyVal.noConfusion h⟩

/-- Claim C6 (amended): for every HTTP-200 response whose decoded body is a
mapping, `get_api_answer` raises `ErrorKeyApiAnswer` iff the body has a
top-level `error` or `code` key, and returns the body unmodified otherwise;
for non-mapping bodies the containment test is Python `in`, which can raise
without any key being present. -/
theorem get_api_answer_error_key_mapping (t : Tokens) (ts : PyVal)
    (kvs : List (String × PyVal)) :
    ((∃ m, get_api_answer t ts (FetchResult.resp 200 (PyVal.dict kvs))
        = Except.error (PyErr.errorKeyApiAnswer m)) ↔
      ((pyLookup kvs "error").isSome ∨ (pyLookup kvs "code").isSome)) ∧
    (pyLookup kvs "error" = Option.none → pyLookup kvs "code" = Option.none →
      get_api_answer t ts (FetchResult.resp 200 (PyVal.dict kvs))
        = Except.ok (PyVal.dict kvs)) := by
  rcases he : pyLookup kvs "error" with _ | v
  · have ha1 : (kvs.any fun p => p.1 == "error") = false := by
      rw [any_key_eq_lookup_isSome, he]; rfl
    rcases hcd : pyLookup kvs "code" with _ | w
    · have ha2 : (kvs.any fun p => p.1 == "code") = false := by
        rw [any_key_eq_lookup_isSome, hcd]; rfl
      have hres : get_api_answer t ts (FetchResult.resp 200 (PyVal.dict kvs))
          = Except.ok (PyVal.dict kvs) := by
        simp [get_api_answer, pyContains, ha1, ha2]
      rw [hres]
      refine ⟨?_, fun _ _ => rfl⟩
      constructor
      · rintro ⟨m, hm⟩; cases hm
      · rintro (h | h) <;> simp at h
    · have ha2 : (kvs.any fun p => p.1 == "code") = true := by
        rw [any_key_eq_lookup_isSome, hcd]; rfl
      have hres : get_api_answer t ts (FetchResult.resp 200 (PyVal.dict kvs))
          = Except.error (PyErr.errorKeyApiAnswer
              ("Отказ сервера. В ответе найден ключ:code. Ошибка:" ++ w.pyStr
                ++ ". " ++ ("Параметры:" ++ ENDPOINT ++ " " ++ HEADERS_str t ++ " "
                ++ ts.pyStr))) := by
        simp [get_api_answer, pyContains, ha1, ha2, pySubscript, hcd]
      rw [hres]
      refine ⟨?_, fun _ hc => by simp [hcd] at hc⟩
      constructor
      · intro _; right; rfl
      · intro _; exact ⟨_, rfl⟩
  · have ha1 : (kvs.any fun p => p.1 == "error") = true := by
      rw [any_key_eq_lookup_isSome, he]; rfl
    have hres : get_api_answer t ts (FetchResult.resp 200 (PyVal.dict kvs))
        = Except.error (PyErr.errorKeyApiAnswer
            ("Отказ сервера. В ответе найден ключ:error. Ошибка:" ++ v.pyStr
              ++ ". " ++ ("Параметры:" ++ ENDPOINT ++ " " ++ HEADERS_str t ++ " "
              ++ ts.pyStr))) := by
      simp [get_api_answer, pyContains, ha1, pySubscript, he]
    rw [hres]
    refine ⟨?_, fun herr _ => by simp [he] at herr⟩
    constructor
    · intro _; left; rfl
    · intro _; exact ⟨_, rfl⟩

/-- Concrete instance of `get_api_answer_error_key_mapping`: a clean body is
returned unmodified. -/
theorem get_api_answer_error_key_mapping_witness :
    get_api_answer tokensOk (PyVal.int 0)
        (FetchResult.resp 200 (PyVal.dict [("homeworks", PyVal.list [])]))
      = Except.ok (PyVal.dict [("homeworks", PyVal.list [])]) :=
  (get_api_answer_error_key_mapping tokensOk (PyVal.int 0)
    [("homeworks", PyVal.list [])]).2 rfl rfl

/-- Claim C1 counterexample: the cursor is not monotone.  A dispatched
success response carrying `current_date` 0 rewrites a cursor of 5 to 0 — the
cursor regresses. -/
theorem cursor_can_regress_counterexample :
    (iterate tokensOk envRegressing ⟨PyVal.int 5, ""⟩).1.timestamp = PyVal.int 0 ∧
    (iterate tokensOk envRegressing ⟨PyVal.int 5, ""⟩).2
      = [Event.botSend textApproved, Event.sleep 600] ∧
    (0 : Int) < 5 :=
  ⟨rfl, rfl, by decide⟩

/-- Claim C1 (amended): the cursor is advanced — set to the response's
`current_date` — only inside the dispatch-guarded success branch (successful
fetch, validation and parse, a message differing from `last_message`, and a
dispatch that returns without raising) and only when the response carries
`current_date`; in every other situation (iteration failure, empty
`homeworks`, suppressed duplicate, raising dispatch, absent `current_date`)
the cursor is unchanged.  The server value is adopted as-is, so the cursor
is not guaranteed never to regress. -/
theorem cursor_update_characterization (t : Tokens) (env : IterEnv) (s : LoopState) :
    (iterate t env s).1.timestamp = s.timestamp ∨
    (∃ kvs hws hw msg d,
      get_api_answer t s.timestamp env.fetch = .ok (PyVal.dict kvs) ∧
      check_response (PyVal.dict kvs) = .ok (hw :: hws) ∧
      parse_status hw = .ok msg ∧
      s.last_message ≠ msg ∧
      (send_message (env.sends 0) msg).2 = Option.none ∧
      pyLookup kvs "current_date" = some d ∧
      (iterate t env s).1 = ⟨d, msg⟩) := by
  rcases tryBody_forms t env s with h1 | ⟨e, h2⟩ |
    ⟨hw, msg, em, hp, hlm, hout, h3⟩ | ⟨kvs, hws, hw, msg, hg, hc, hp, hlm, hsnd, h4⟩
  · left
    rw [iterate_raised_none t env s (by rw [h1]), h1]
  · left
    rw [iterate_raised_some t env s e (by rw [h2]), h2]
    rcases handleError_forms env s (countSends (⟨s, [], some e⟩ : TryResult).events) e with
      ⟨-, hh⟩ | ⟨-, em, -, hh⟩ | ⟨-, -, hh⟩ <;> simp [hh]
  · left
    rw [iterate_raised_some t env s (PyErr.otherError em) (by rw [h3]), h3]
    rcases handleError_forms env s
        (countSends (⟨s, [Event.botSend msg], some (PyErr.otherError em)⟩ : TryResult).events)
        (PyErr.otherError em) with
      ⟨-, hh⟩ | ⟨-, em2, -, hh⟩ | ⟨-, -, hh⟩ <;> simp [hh]
  · rcases hlk : pyLookup kvs "current_date" with _ | d
    · left
      rw [iterate_raised_none t env s (by rw [h4]), h4]
      simp [hlk]
    · right
      refine ⟨kvs, hws, hw, msg, d, hg, hc, hp, hlm, hsnd, hlk, ?_⟩
      rw [iterate_raised_none t env s (by rw [h4]), h4]
      simp [hlk]

/-- A send outcome that is not a non-Telegram exception never propagates an
error out of `send_message`. -/
lemma send_message_snd_none (out : SendOutcome) (m : String)
    (h : ∀ em, out ≠ SendOutcome.exn em) :
    (send_message out m).2 = Option.none := by
  rcases out with _ | e | em
  · rfl
  · rfl
  · exact absurd rfl (h em)

/-- Every `send_message` call records exactly one bot-send attempt. -/
lemma countSends_send_message (out : SendOutcome) (m : String) :
    countSends (send_message out m).1 = 1 := by
  rcases out with _ | e | em <;> rfl

/-- The handler's resulting state does not depend on which non-raising send
outcomes the two environments provide. -/
lemma handleError_fst (env env2 : IterEnv) (s : LoopState) (n n2 : Nat) (e : PyErr)
    (h1 : ∀ em, env.sends n ≠ SendOutcome.exn em)
    (h2 : ∀ em, env2.sends n2 ≠ SendOutcome.exn em) :
    (handleError env s n e).1 = (handleError env2 s n2 e).1 := by
  by_cases hlm : s.last_message = failMsg e
  · simp [handleError, failMsg, hlm]
  · rcases hp1 : send_message (env.sends n) (failMsg e) with ⟨evs1, e?1⟩
    rcases hp2 : send_message (env2.sends n2) (failMsg e) with ⟨evs2, e?2⟩
    have s1 := send_message_snd_none (env.sends n) (failMsg e) h1
    have s2 := send_message_snd_none (env2.sends n2) (failMsg e) h2
    rw [hp1] at s1
    rw [hp2] at s2
    simp only at s1 s2
    subst s1
    subst s2
    simp only [failMsg] at hlm hp1 hp2
    simp [handleError, failMsg, hlm, hp1, hp2]

/-- The state, the raised exception, and the number of bot-send attempts of
the `try` body do not depend on the send outcomes, provided neither
environment's first send raises a non-Telegram exception. -/
lemma tryBody_state_raised_eq (t : Tokens) (env env2 : IterEnv) (s : LoopState)
    (hf : env2.fetch = env.fetch)
    (hnx : ∀ em, env.sends 0 ≠ SendOutcome.exn em)
    (hnx2 : ∀ em, env2.sends 0 ≠ SendOutcome.exn em) :
    (tryBody t env s).state = (tryBody t env2 s).state ∧
    (tryBody t env s).raised = (tryBody t env2 s).raised ∧
    countSends (tryBody t env s).events = countSends (tryBody t env2 s).events := by
  rcases hg : get_api_answer t s.timestamp env.fetch with e | response
  · have hb1 : tryBody t env s = ⟨s, [], some e⟩ := by simp [tryBody, hg]
    have hb2 : tryBody t env2 s = ⟨s, [], some e⟩ := by simp [tryBody, hf, hg]
    rw [hb1, hb2]
    exact ⟨rfl, rfl, rfl⟩
  rcases hc : check_response response with e | hws
  · have hb1 : tryBody t env s = ⟨s, [], some e⟩ := by simp [tryBody, hg, hc]
    have hb2 : tryBody t env2 s = ⟨s, [], some e⟩ := by simp [tryBody, hf, hg, hc]
    rw [hb1, hb2]
    exact ⟨rfl, rfl, rfl⟩
  rcases hws with _ | ⟨hw, rest⟩
  · have hb1 : tryBody t env s = ⟨s, [], Option.none⟩ := by simp [tryBody, hg, hc]
    have hb2 : tryBody t env2 s = ⟨s, [], Option.none⟩ := by simp [tryBody, hf, hg, hc]
    rw [hb1, hb2]
    exact ⟨rfl, rfl, rfl⟩
  rcases hp : parse_status hw with e | msg
  · have hb1 : tryBody t env s = ⟨s, [], some e⟩ := by simp [tryBody, hg, hc, hp]
    have hb2 : tryBody t env2 s = ⟨s, [], some e⟩ := by simp [tryBody, hf, hg, hc, hp]
    rw [hb1, hb2]
    exact ⟨rfl, rfl, rfl⟩
  by_cases hlm : s.last_message = msg
  · have hb1 : tryBody t env s = ⟨s, [], Option.none⟩ := by simp [tryBody, hg, hc, hp, hlm]
    have hb2 : tryBody t env2 s = ⟨s, [], Option.none⟩ := by
      simp [tryBody, hf, hg, hc, hp, hlm]
    rw [hb1, hb2]
    exact ⟨rfl, rfl, rfl⟩
  obtain ⟨kvs, rfl, hlk⟩ := check_response_ok_dict response (hw :: rest) hc
  rcases hp1 : send_message (env.sends 0) msg with ⟨evs1, e?1⟩
  rcases hp2 : send_message (env2.sends 0) msg with ⟨evs2, e?2⟩
  have s1 := send_message_snd_none (env.sends 0) msg hnx
  have s2 := send_message_snd_none (env2.sends 0) msg hnx2
  rw [hp1] at s1
  rw [hp2] at s2
  simp only at s1 s2
  subst s1
  subst s2
  have hb1 : tryBody t env s =
      ⟨⟨(pyLookup kvs "current_date").getD s.timestamp, msg⟩, evs1, Option.none⟩ := by
    simp [tryBody, hg, hc, hp, hlm, hp1, pyGetMethod]
  have hb2 : tryBody t env2 s =
      ⟨⟨(pyLookup kvs "current_date").getD s.timestamp, msg⟩, evs2, Option.none⟩ := by
    simp [tryBody, hf, hg, hc, hp, hlm, hp2, pyGetMethod]
  rw [hb1, hb2]
  refine ⟨rfl, rfl, ?_⟩
  have c1 := countSends_send_message (env.sends 0) msg
  have c2 := countSends_send_message (env2.sends 0) msg
  rw [hp1] at c1
  rw [hp2] at c2
  simp only at c1 c2
  rw [c1, c2]

/-- Claim C8: `send_message` never propagates a delivery failure
(`TelegramError`) to its caller — it logs and returns normally — and
consequently, as long as the bot raises nothing beyond `TelegramError`,
delivery failures are invisible to the loop: the resulting loop state is the
same as if every send had succeeded, so a delivery failure never terminates
the loop. -/
theorem send_message_swallows_delivery_failure (t : Tokens) (env : IterEnv)
    (s : LoopState) (h : ∀ n em, env.sends n ≠ SendOutcome.exn em) :
    (∀ e m, (send_message (SendOutcome.tgError e) m).2 = Option.none) ∧
    (iterate t env s).1 = (iterate t ⟨env.fetch, fun _ => SendOutcome.ok⟩ s).1 := by
  refine ⟨fun e m => rfl, ?_⟩
  obtain ⟨hst, hrs, hcnt⟩ := tryBody_state_raised_eq t env ⟨env.fetch, fun _ => SendOutcome.ok⟩ s
    rfl (fun em => h 0 em) (fun em => by simp)
  rcases hq : (tryBody t env s).raised with _ | e
  · rw [iterate_raised_none t env s hq,
      iterate_raised_none t ⟨env.fetch, fun _ => SendOutcome.ok⟩ s (by rw [← hrs, hq])]
    exact hst
  · rw [iterate_raised_some t env s e hq,
      iterate_raised_some t ⟨env.fetch, fun _ => SendOutcome.ok⟩ s e (by rw [← hrs, hq])]
    rw [← hst, ← hcnt]
    exact handleError_fst env ⟨env.fetch, fun _ => SendOutcome.ok⟩
      ((tryBody t env s).state) (countSends (tryBody t env s).events)
      (countSends (tryBody t env s).events) e (fun em => h _ em) (fun em => by simp)

/-- Concrete instance of `send_message_swallows_delivery_failure`: every
send failing with `TelegramError` during a transport-failure iteration
leaves the loop state as if sends had succeeded. -/
theorem send_message_swallows_delivery_failure_witness :
    (iterate tokensOk envTransportTgFail ⟨PyVal.int 5, ""⟩).1 =
      (iterate tokensOk ⟨envTransportTgFail.fetch, fun _ => SendOutcome.ok⟩
        ⟨PyVal.int 5, ""⟩).1 :=
  (send_message_swallows_delivery_failure tokensOk envTransportTgFail
    ⟨PyVal.int 5, ""⟩ (fun _ _ h => SendOutcome.noConfusion h)).2

/-- One iteration, rewritten through an explicit description of its `try`
body, when the body raised nothing. -/
lemma iterate_of_tryBody_eq_none (t : Tokens) (env : IterEnv) (s : LoopState)
    (st : LoopState) (evs : List Event)
    (hf : tryBody t env s = ⟨st, evs, Option.none⟩) :
    iterate t env s = (st, evs ++ [Event.sleep RETRY_PERIOD]) := by
  rw [iterate_raised_none t env s (by rw [hf]), hf]

/-- One iteration, rewritten through an explicit description of its `try`
body, when the body raised an exception. -/
lemma iterate_of_tryBody_eq_some (t : Tokens) (env : IterEnv) (s : LoopState)
    (st : LoopState) (evs : List Event) (e : PyErr)
    (hf : tryBody t env s = ⟨st, evs, some e⟩) :
    iterate t env s = ((handleError env st (countSends evs) e).1,
      (evs ++ (handleError env st (countSends evs) e).2) ++ [Event.sleep RETRY_PERIOD]) := by
  rw [iterate_raised_some t env s e (by rw [hf]), hf]

/-- Claim C10: in the failure path, `last_message` is updated only after the
inner `send_message` call returns without raising; when dispatching the
failure notification itself raises, both `last_message` and the cursor are
left unchanged, so on a next iteration with the same environment the same
failure text is attempted again rather than suppressed. -/
theorem failure_dispatch_raise_preserves_state (t : Tokens) (env : IterEnv)
    (s : LoopState) (e : PyErr) (em : String)
    (h1 : (tryBody t env s).raised = some e)
    (h2 : s.last_message ≠ failMsg e)
    (h3 : env.sends (countSends (tryBody t env s).events) = SendOutcome.exn em) :
    (iterate t env s).1 = s ∧
    Event.botSend (failMsg e) ∈ (iterate t env s).2 ∧
    Event.botSend (failMsg e) ∈ (iterate t env ((iterate t env s).1)).2 := by
  have hst : (tryBody t env s).state = s := by
    rcases tryBody_forms t env s with hf | ⟨e2, hf⟩ | ⟨hw, msg, em2, -, -, -, hf⟩ |
      ⟨kvs, hws, hw, msg, -, -, -, -, -, hf⟩ <;> rw [hf] at h1 ⊢
    all_goals simp_all
  obtain ⟨evs, hev⟩ : ∃ evs, (tryBody t env s).events = evs := ⟨_, rfl⟩
  rw [hev] at h3
  have hh : handleError env s (countSends evs) e =
      (s, [Event.botSend (failMsg e),
        Event.logSendFailure ("Ошибка отправки сообщения " ++ failMsg e
          ++ " в Telegram: " ++ (PyErr.otherError em).pyStr)]) := by
    rcases handleError_forms env s (countSends evs) e with
      ⟨hl, -⟩ | ⟨-, em2, hout, hh⟩ | ⟨-, hsn, -⟩
    · exact absurd hl h2
    · rw [h3] at hout
      cases hout
      exact hh
    · rw [h3] at hsn
      simp [send_message] at hsn
  have hb : tryBody t env s = ⟨s, evs, some e⟩ := by
    rcases hq : tryBody t env s with ⟨st, evs2, e?⟩
    rw [hq] at h1 hst hev
    simp only at h1 hst hev
    rw [hst, hev, h1]
  have hit : iterate t env s = (s,
      (evs ++ [Event.botSend (failMsg e),
        Event.logSendFailure ("Ошибка отправки сообщения " ++ failMsg e
          ++ " в Telegram: " ++ (PyErr.otherError em).pyStr)]) ++ [Event.sleep RETRY_PERIOD]) := by
    rw [iterate_of_tryBody_eq_some t env s s evs e hb, hh]
  refine ⟨by rw [hit], by rw [hit]; simp, ?_⟩
  have h1' : (iterate t env s).1 = s := by rw [hit]
  rw [h1', hit]
  simp

/-- Concrete instance of `failure_dispatch_raise_preserves_state`: HTTP 404
iteration whose failure dispatch raises a non-Telegram exception. -/
theorem failure_dispatch_raise_preserves_state_witness :
    (iterate tokensOk envHttp404AllSendsRaise ⟨PyVal.int 5, ""⟩).1 = ⟨PyVal.int 5, ""⟩ ∧
    Event.botSend (failMsg (PyErr.errorApiAnswer "Не получен ответ API. Код ответа: 404"))
      ∈ (iterate tokensOk envHttp404AllSendsRaise ⟨PyVal.int 5, ""⟩).2 ∧
    Event.botSend (failMsg (PyErr.errorApiAnswer "Не получен ответ API. Код ответа: 404"))
      ∈ (iterate tokensOk envHttp404AllSendsRaise
          ((iterate tokensOk envHttp404AllSendsRaise ⟨PyVal.int 5, ""⟩).1)).2 :=
  failure_dispatch_raise_preserves_state tokensOk envHttp404AllSendsRaise
    ⟨PyVal.int 5, ""⟩ (PyErr.errorApiAnswer "Не получен ответ API. Код ответа: 404")
    "kaput" rfl (by decide) rfl

/-- Counting send attempts distributes over trace concatenation. -/
lemma countSendsOf_append (m : String) (l1 l2 : List Event) :
    countSendsOf m (l1 ++ l2) = countSendsOf m l1 + countSendsOf m l2 := by
  simp [countSendsOf, List.filter_append]

/-- Counting send attempts: bot-send head. -/
lemma countSendsOf_cons_send (m a : String) (evs : List Event) :
    countSendsOf m (Event.botSend a :: evs)
      = countSendsOf m evs + (if a = m then 1 else 0) := by
  by_cases h : a = m <;> simp [countSendsOf, List.filter_cons, h]

/-- Counting send attempts: log head. -/
lemma countSendsOf_cons_log (m x : String) (evs : List Event) :
    countSendsOf m (Event.logSendFailure x :: evs) = countSendsOf m evs := by
  simp [countSendsOf, List.filter_cons]

/-- Counting send attempts: sleep head. -/
lemma countSendsOf_cons_sleep (m : String) (n : Nat) (evs : List Event) :
    countSendsOf m (Event.sleep n :: evs) = countSendsOf m evs := by
  simp [countSendsOf, List.filter_cons]

/-- A trace dispatching no text equal to `m` counts zero sends of `m`. -/
lemma countSendsOf_eq_zero (m : String) (evs : List Event)
    (h : ∀ txt, Event.botSend txt ∈ evs → txt ≠ m) :
    countSendsOf m evs = 0 := by
  induction evs with
  | nil => rfl
  | cons a tl ih =>
      have htl := ih (fun txt ht => h txt (List.mem_cons_of_mem _ ht))
      rcases a with txt | x | n
      · rw [countSendsOf_cons_send, htl,
          if_neg (h txt (List.mem_cons_self _ _))]
      · rw [countSendsOf_cons_log, htl]
      · rw [countSendsOf_cons_sleep, htl]

/-- The failure-notification text never coincides with a status-change
notification text: their first characters differ. -/
lemma success_ne_fail (a b : String) :
    "Сбой в работе программы: " ++ a ≠ "Изменился статус проверки работы \"" ++ b := by
  intro h
  have h2 : ("Сбой в работе программы: " ++ a).data.head?
      = ("Изменился статус проверки работы \"" ++ b).data.head? := by rw [h]
  rw [show ("Сбой в работе программы: " ++ a).data.head? = some 'С' from rfl] at h2
  rw [show ("Изменился статус проверки работы \"" ++ b).data.head? = some 'И' from rfl] at h2
  simp at h2

/-- Every successful `parse_status` result starts with the fixed
status-change prefix. -/
lemma parse_status_ok_shape (hw : PyVal) (m : String)
    (h : parse_status hw = .ok m) :
    ∃ a, m = "Изменился статус проверки работы \"" ++ a := by
  unfold parse_status at h
  repeat' split at h
  all_goals (try cases h)
  exact ⟨_, by rw [String.append_assoc, String.append_assoc]⟩

/-- Counting send attempts: empty trace. -/
lemma countSendsOf_nil (m : String) : countSendsOf m [] = 0 := rfl

/-- In both the success and the failure path, a dispatched text always
differs from the `last_message` the iteration started with: a candidate equal
to `last_message` is never dispatched. -/
lemma no_send_equals_last (t : Tokens) (env : IterEnv) (s : LoopState) :
    ∀ txt, Event.botSend txt ∈ (iterate t env s).2 → txt ≠ s.last_message := by
  intro txt hmem
  rcases tryBody_forms t env s with hf | ⟨e, hf⟩ | ⟨hw, msg, em, hp, hlm, hout, hf⟩ |
    ⟨kvs, hws, hw, msg, hg, hc, hp, hlm, hsnd, hf⟩
  · rw [iterate_of_tryBody_eq_none t env s _ _ hf] at hmem
    simp at hmem
  · rw [iterate_of_tryBody_eq_some t env s _ _ _ hf] at hmem
    rcases handleError_forms env s (countSends ([] : List Event)) e with
      ⟨-, hh⟩ | ⟨hlm2, em, -, hh⟩ | ⟨hlm2, hsn, hh⟩
    · rw [hh] at hmem
      simp at hmem
    · rw [hh] at hmem
      simp at hmem
      rw [hmem]
      exact Ne.symm hlm2
    · rw [hh] at hmem
      rcases send_message_forms (env.sends (countSends ([] : List Event))) (failMsg e) with
        hs | ⟨te, -, hs⟩ | ⟨em, -, hs⟩
      · rw [hs] at hmem
        simp at hmem
        rw [hmem]
        exact Ne.symm hlm2
      · rw [hs] at hmem
        simp at hmem
        rw [hmem]
        exact Ne.symm hlm2
      · rw [hs] at hsn
        simp at hsn
  · rw [iterate_of_tryBody_eq_some t env s _ _ _ hf] at hmem
    rcases handleError_forms env s (countSends [Event.botSend msg]) (PyErr.otherError em) with
      ⟨-, hh⟩ | ⟨hlm2, em2, -, hh⟩ | ⟨hlm2, hsn, hh⟩
    · rw [hh] at hmem
      simp at hmem
      rw [hmem]
      exact Ne.symm hlm
    · rw [hh] at hmem
      simp at hmem
      rcases hmem with hmem | hmem
      · rw [hmem]
        exact Ne.symm hlm
      · rw [hmem]
        exact Ne.symm hlm2
    · rw [hh] at hmem
      rcases send_message_forms (env.sends (countSends [Event.botSend msg]))
          (failMsg (PyErr.otherError em)) with hs | ⟨te, -, hs⟩ | ⟨em2, -, hs⟩
      · rw [hs] at hmem
        simp at hmem
        rcases hmem with hmem | hmem
        · rw [hmem]
          exact Ne.symm hlm
        · rw [hmem]
          exact Ne.symm hlm2
      · rw [hs] at hmem
        simp at hmem
        rcases hmem with hmem | hmem
        · rw [hmem]
          exact Ne.symm hlm
        · rw [hmem]
          exact Ne.symm hlm2
      · rw [hs] at hsn
        simp at hsn
  · rcases send_message_forms (env.sends 0) msg with hs | ⟨te, -, hs⟩ | ⟨em, -, hs⟩
    · rw [hs] at hf
      rw [iterate_of_tryBody_eq_none t env s _ _ hf] at hmem
      simp at hmem
      rw [hmem]
      exact Ne.symm hlm
    · rw [hs] at hf
      rw [iterate_of_tryBody_eq_none t env s _ _ hf] at hmem
      simp at hmem
      rw [hmem]
      exact Ne.symm hlm
    · rw [hs] at hsnd
      simp at hsnd

/-- A single iteration dispatches any given text at most once: the only way
two sends happen in one iteration is a success dispatch whose bot call raised
followed by the failure dispatch, and those two texts always differ. -/
lemma trace_count_le_one (t : Tokens) (env : IterEnv) (s : LoopState) (m : String) :
    countSendsOf m (iterate t env s).2 ≤ 1 := by
  rcases tryBody_forms t env s with hf | ⟨e, hf⟩ | ⟨hw, msg, em, hp, hlm, hout, hf⟩ |
    ⟨kvs, hws, hw, msg, hg, hc, hp, hlm, hsnd, hf⟩
  · rw [iterate_of_tryBody_eq_none t env s _ _ hf]
    simp [countSendsOf_append, countSendsOf_cons_sleep, countSendsOf_nil]
  · rw [iterate_of_tryBody_eq_some t env s _ _ _ hf]
    rcases handleError_forms env s (countSends ([] : List Event)) e with
      ⟨-, hh⟩ | ⟨-, em, -, hh⟩ | ⟨-, hsn, hh⟩
    · rw [hh]
      simp [countSendsOf_append, countSendsOf_cons_sleep, countSendsOf_nil]
    · rw [hh]
      by_cases h1 : failMsg e = m <;>
        simp [countSendsOf_append, countSendsOf_cons_sleep, countSendsOf_cons_send,
          countSendsOf_cons_log, countSendsOf_nil, h1]
    · rw [hh]
      rcases send_message_forms (env.sends (countSends ([] : List Event))) (failMsg e) with
        hs | ⟨te, -, hs⟩ | ⟨em, -, hs⟩
      · rw [hs]
        by_cases h1 : failMsg e = m <;>
          simp [countSendsOf_append, countSendsOf_cons_sleep, countSendsOf_cons_send,
            countSendsOf_cons_log, countSendsOf_nil, h1]
      · rw [hs]
        by_cases h1 : failMsg e = m <;>
          simp [countSendsOf_append, countSendsOf_cons_sleep, countSendsOf_cons_send,
            countSendsOf_cons_log, countSendsOf_nil, h1]
      · rw [hs] at hsn
        simp at hsn
  · rw [iterate_of_tryBody_eq_some t env s _ _ _ hf]
    obtain ⟨a, ha⟩ := parse_status_ok_shape hw msg hp
    have hne : failMsg (PyErr.otherError em) ≠ msg := by
      rw [ha]
      exact success_ne_fail _ _
    rcases handleError_forms env s (countSends [Event.botSend msg]) (PyErr.otherError em) with
      ⟨-, hh⟩ | ⟨-, em2, -, hh⟩ | ⟨-, hsn, hh⟩
    · rw [hh]
      by_cases h1 : msg = m <;>
        simp [countSendsOf_append, countSendsOf_cons_sleep, countSendsOf_cons_send,
          countSendsOf_cons_log, countSendsOf_nil, h1]
    · rw [hh]
      by_cases h1 : msg = m
      · by_cases h2 : failMsg (PyErr.otherError em) = m
        · exact absurd (h2.trans h1.symm) hne
        · simp [countSendsOf_append, countSendsOf_cons_sleep, countSendsOf_cons_send,
            countSendsOf_cons_log, countSendsOf_nil, h1, h2]
      · by_cases h2 : failMsg (PyErr.otherError em) = m <;>
          simp [countSendsOf_append, countSendsOf_cons_sleep, countSendsOf_cons_send,
            countSendsOf_cons_log, countSendsOf_nil, h1, h2]
    · rw [hh]
      rcases send_message_forms (env.sends (countSends [Event.botSend msg]))
          (failMsg (PyErr.otherError em)) with hs | ⟨te, -, hs⟩ | ⟨em2, -, hs⟩
      · rw [hs]
        by_cases h1 : msg = m
        · by_cases h2 : failMsg (PyErr.otherError em) = m
          · exact absurd (h2.trans h1.symm) hne
          · simp [countSendsOf_append, countSendsOf_cons_sleep, countSendsOf_cons_send,
              countSendsOf_cons_log, countSendsOf_nil, h1, h2]
        · by_cases h2 : failMsg (PyErr.otherError em) = m <;>
            simp [countSendsOf_append, countSendsOf_cons_sleep, countSendsOf_cons_send,
              countSendsOf_cons_log, countSendsOf_nil, h1, h2]
      · rw [hs]
        by_cases h1 : msg = m
        · by_cases h2 : failMsg (PyErr.otherError em) = m
          · exact absurd (h2.trans h1.symm) hne
          · simp [countSendsOf_append, countSendsOf_cons_sleep, countSendsOf_cons_send,
              countSendsOf_cons_log, countSendsOf_nil, h1, h2]
        · by_cases h2 : failMsg (PyErr.otherError em) = m <;>
            simp [countSendsOf_append, countSendsOf_cons_sleep, countSendsOf_cons_send,
              countSendsOf_cons_log, countSendsOf_nil, h1, h2]
      · rw [hs] at hsn
        simp at hsn
  · rcases send_message_forms (env.sends 0) msg with hs | ⟨te, -, hs⟩ | ⟨em, -, hs⟩
    · rw [hs] at hf
      rw [iterate_of_tryBody_eq_none t env s _ _ hf]
      by_cases h1 : msg = m <;>
        simp [countSendsOf_append, countSendsOf_cons_sleep, countSendsOf_cons_send,
          countSendsOf_nil, h1]
    · rw [hs] at hf
      rw [iterate_of_tryBody_eq_none t env s _ _ hf]
      by_cases h1 : msg = m <;>
        simp [countSendsOf_append, countSendsOf_cons_sleep, countSendsOf_cons_send,
          countSendsOf_cons_log, countSendsOf_nil, h1]
    · rw [hs] at hsnd
      simp at hsnd

/-- Claim C7: deduplication idempotence.  In both the success path and the
failure path a candidate message equal to `last_message` is never dispatched
(every dispatched text differs from the iteration's starting `last_message`),
and hence, once an iteration records a message `m` in `last_message`, the
following iteration dispatches `m` zero times: at most one notification with
text `m` goes out over the two consecutive iterations. -/
theorem dedup_idempotence (t : Tokens) (s : LoopState) (m : String)
    (env1 env2 : IterEnv) :
    (∀ txt, Event.botSend txt ∈ (iterate t env1 s).2 → txt ≠ s.last_message) ∧
    ((iterate t env1 s).1.last_message = m →
      countSendsOf m ((iterate t env1 s).2
        ++ (iterate t env2 ((iterate t env1 s).1)).2) ≤ 1) := by
  refine ⟨no_send_equals_last t env1 s, fun hm => ?_⟩
  rw [countSendsOf_append]
  have h2 : countSendsOf m (iterate t env2 ((iterate t env1 s).1)).2 = 0 := by
    apply countSendsOf_eq_zero
    intro txt ht
    have h3 := no_send_equals_last t env2 ((iterate t env1 s).1) txt ht
    rw [hm] at h3
    exact h3
  rw [h2]
  have h1 := trace_count_le_one t env1 s m
  omega

/-- Concrete instance of `dedup_idempotence`: the success scenario repeated
twice dispatches its notification text at most once. -/
theorem dedup_idempotence_witness :
    countSendsOf textApproved ((iterate tokensOk envApproved ⟨PyVal.int 5, ""⟩).2
      ++ (iterate tokensOk envApproved
          ((iterate tokensOk envApproved ⟨PyVal.int 5, ""⟩).1)).2) ≤ 1 :=
  (dedup_idempotence tokensOk ⟨PyVal.int 5, ""⟩ textApproved envApproved envApproved).2 rfl
